import Mathlib

/-!
Verification of the soak-test launcher
(`integration_test/soak_test/cmd/launcher/main.go`).

The launcher parses a TTL from its environment, provisions a VM (with a
TTL-in-minutes label), installs the agent under test with a generated
configuration, installs a Python interpreter, uploads a log generator,
starts it asynchronously with a platform-specific script, and on POSIX
verifies startup by reading back a debug log after a short sleep.

This file embeds that program shallowly: the pure string renderers are
Lean functions mirroring the Go `fmt.Sprintf` calls, external calls
(provisioning, remote execution, upload) are resolved by an explicit
environment, and `mainErrModel` replays the control flow of `mainErr`,
recording the effects issued and the stages of the run controller state
machine that were reached.
-/

namespace Launcher

/-! ## Model of the Go standard library pieces the launcher uses -/

/-- Numeric value of a decimal digit character. -/
def digitVal (c : Char) : Nat := c.toNat - 48

/-- Consume a leading run of decimal digits, accumulating their value.
Returns `none` when no digit is present (Go: "time: missing value").
Mirrors `leadingInt` inside Go `time.ParseDuration`. -/
def takeDigits : List Char → Nat → Bool → Option (Nat × List Char)
  | c :: cs, acc, seen =>
      if c.isDigit then takeDigits cs (acc * 10 + digitVal c) true
      else if seen then some (acc, c :: cs) else none
  | [], acc, seen => if seen then some (acc, []) else none

/-- Consume the unit letters following a value: everything up to the next
digit (or end of input). -/
def takeUnit : List Char → List Char × List Char
  | c :: cs =>
      if c.isDigit then ([], c :: cs)
      else
        let (u, r) := takeUnit cs
        (c :: u, r)
  | [] => ([], [])

/-- Nanoseconds per duration unit, as in Go `time`'s `unitMap`. -/
def unitNs : List Char → Option Nat
  | ['n', 's'] => some 1
  | ['u', 's'] => some 1000
  | ['m', 's'] => some 1000000
  | ['s'] => some 1000000000
  | ['m'] => some 60000000000
  | ['h'] => some 3600000000000
  | _ => none

/-- Sum the `<value><unit>` components of a duration string (fuel-driven;
each step consumes at least one character). -/
def parseComps : Nat → List Char → Nat → Option Nat
  | _, [], acc => some acc
  | 0, _ :: _, _ => none
  | fuel + 1, cs, acc =>
      match takeDigits cs 0 false with
      | none => none
      | some (v, rest) =>
          match unitNs (takeUnit rest).1 with
          | none => none
          | some ns => parseComps fuel (takeUnit rest).2 (acc + v * ns)

/-- Modelled from the spec: Go's `time.ParseDuration`, the standard
library routine `mainErr` uses to parse the `TTL` environment variable;
it is not part of this repository's sources. A duration string is an
optional sign followed by `<value><unit>` components (units `ns`, `us`,
`ms`, `s`, `m`, `h`), with `"0"` accepted bare; the result is a signed
nanosecond count. Fractional component values and int64 overflow are not
modelled (no claim exercises them). -/
def parseDuration (s : String) : Option Int :=
  let cs := s.data
  let signed : Bool × List Char :=
    match cs with
    | '-' :: t => (true, t)
    | '+' :: t => (false, t)
    | t => (false, t)
  if signed.2 = ['0'] then some 0
  else if signed.2 = [] then none
  else
    match parseComps signed.2.length signed.2 0 with
    | none => none
    | some n => some (if signed.1 then -(n : Int) else (n : Int))

/-- `time.Minute` in nanoseconds. -/
def minuteNs : Int := 60000000000

/-- The TTL label value computed by `mainErr`:
`strconv.Itoa(int(parsedTTL / time.Minute))`. Go's integer division
truncates toward zero, which is `Int.tdiv`. -/
def ttlMinutesLabel (d : Int) : String := toString (Int.tdiv d minuteNs)

/-- The label derived from a TTL string, when it parses. -/
def ttlLabelOf (ttl : String) : Option String :=
  (parseDuration ttl).map ttlMinutesLabel

/-! ## Constants of `main.go` -/

/-- `logPath = "/tmp/tail_file"`. -/
def logPath : String := "/tmp/tail_file"

/-- `logGeneratorPath = "/log_generator.py"`. -/
def logGeneratorPath : String := "/log_generator.py"

/-- `debugLogPath := "/tmp/log_generator.log"` inside `mainErr`. -/
def debugLogPath : String := "/tmp/log_generator.log"

/-- `MachineType: "e2-standard-16"` in the `gce.VMOptions`. -/
def machineType : String := "e2-standard-16"

/-- `context.WithTimeout(context.Background(), 60*time.Minute)`:
the single overall deadline, in nanoseconds, under which every remote
call of the run is made. -/
def overallDeadlineNs : Nat := 60 * 60 * 1000000000

/-- The run parameters `mainErr` reads from its environment:
`LOG_SIZE_IN_BYTES`, `LOG_RATE`, `TTL`, `DISTRO`, `VM_NAME`. -/
structure Config where
  logSizeInBytes : String
  logRate : String
  ttl : String
  distro : String
  vmName : String
  deriving DecidableEq

/-- Modelled from the spec: `gce.IsWindows` (the platform
classification of the `gce` package, which is not under `src/`)
classifies a platform identifier as Windows-like or POSIX-like, with
unrecognized identifiers treated as POSIX by default; Windows-like
identifiers are those carrying the `windows` family marker as a leading
component. -/
def IsWindows (platform : String) : Bool :=
  platform.data.take 7 == "windows".data

/-! ## The remote script renderers of `mainErr` -/

/-- The agent configuration text built by the `fmt.Sprintf` at the
"Install the Ops Agent" step of `mainErr`, with the two `%s` holes for
the watched path and the debug-log path. -/
def agentConfig (primaryLog debugLog : String) : String :=
  "logging:\n  receivers:\n    mylog_source:\n      type: files\n      include_paths:\n      - "
  ++ primaryLog
  ++ "\n    generator_debug_logs:\n      type: files\n      include_paths:\n      - "
  ++ debugLog
  ++ "\n  exporters:\n    google:\n      type: google_cloud_logging\n  service:\n    pipelines:\n      my_pipeline:\n        receivers:\n        - mylog_source\n        - generator_debug_logs\n        exporters: [google]\n"

/-- The PowerShell script `installPython` run on Windows platforms. -/
def installPythonScript : String :=
  "$tempDir = \"/tmp\"\nmkdir $tempDir\n\n$pythonUrl = \x27https://www.python.org/ftp/python/3.11.2/python-3.11.2.exe\x27\n$pythonInstallerName = $pythonUrl -replace \x27.*/\x27\n[Net.ServicePointManager]::SecurityProtocol = [Net.SecurityProtocolType]::Tls12\n$webClient = New-Object System.Net.WebClient\n$webClient.DownloadFile($pythonUrl, \"$tempDir\\$pythonInstallerName\")\n\n$pythonInstallDir = \"$env:SystemDrive\\Python\"\n$pythonPath = \"$pythonInstallDir\\python.exe\"\nStart-Process \"$tempDir\\$pythonInstallerName\" -Wait -ArgumentList \"/quiet TargetDir=$pythonInstallDir InstallAllUsers=1\"\n"

/-- The Windows `startLogGenerator` script: the `fmt.Sprintf` whose
template is the `Invoke-WmiMethod ... Win32_Process ... Create`
invocation, with `%v` holes for the generator path, the size, the rate
and the watched file path. It does not mention the debug-log path and
performs no output redirection. -/
def startLogGeneratorWindows (genPath sizeStr rateStr filePath : String) : String :=
  "Invoke-WmiMethod -ComputerName . -Class Win32_Process -Name Create -ArgumentList \"$env:SystemDrive\\Python\\python.exe "
  ++ genPath
  ++ " --log-size-in-bytes="
  ++ sizeStr
  ++ " --log-rate="
  ++ rateStr
  ++ " --log-write-type=file --file-path="
  ++ filePath
  ++ "\""

/-- The POSIX `startLogGenerator` script: the `fmt.Sprintf` whose
template is the `nohup python3 ... &> %v &` command, with `%v` holes
for the generator path, the size, the rate, the watched file path and
the debug-log path. -/
def startLogGeneratorPosix (genPath sizeStr rateStr filePath debugLog : String) : String :=
  "nohup python3 "
  ++ genPath
  ++ " \\\n  --log-size-in-bytes=\""
  ++ sizeStr
  ++ "\" \\\n  --log-rate=\""
  ++ rateStr
  ++ "\" \\\n  --log-write-type=file \\\n  --file-path=\""
  ++ filePath
  ++ "\" \\\n  &> "
  ++ debugLog
  ++ " &\n"

/-- The platform-dispatched `startLogGenerator` assignment in `mainErr`
(`if gce.IsWindows(vm.Platform) { ... } else { ... }`). -/
def startLogGenerator (isWin : Bool) (genPath sizeStr rateStr filePath debugLog : String) :
    String :=
  if isWin then startLogGeneratorWindows genPath sizeStr rateStr filePath
  else startLogGeneratorPosix genPath sizeStr rateStr filePath debugLog

/-- The verification read issued on POSIX after the grace period:
`"cat " + debugLogPath`. -/
def catScript : String := "cat " ++ debugLogPath

/-! ## Structured view of the generated agent configuration

The configuration language of the agent under test is YAML; the
launcher emits one fixed document. To state that the emitted text is a
syntactically valid, structured pipeline description, we give the
abstract syntax of the fragment of that language the launcher uses and
a printer to its concrete YAML form, and show the emitted text is the
image of a well-formed abstract configuration. -/

/-- A file-tailing receiver: a name and the include paths it watches. -/
structure FilesReceiver where
  name : String
  includePaths : List String
  deriving DecidableEq

/-- An exporter: a name and its type. -/
structure ExporterDecl where
  name : String
  type : String
  deriving DecidableEq

/-- A pipeline referring to declared receivers and exporters by name. -/
structure PipelineDecl where
  name : String
  receivers : List String
  exporters : List String
  deriving DecidableEq

/-- A logging configuration: receivers, exporters, pipelines. -/
structure LoggingConfig where
  receivers : List FilesReceiver
  exporters : List ExporterDecl
  pipelines : List PipelineDecl
  deriving DecidableEq

/-- Every name a pipeline refers to is declared: the structural
well-formedness of a logging configuration. -/
def LoggingConfig.wellFormed (c : LoggingConfig) : Bool :=
  c.pipelines.all fun p =>
    (p.receivers.all fun r => c.receivers.any fun d => d.name == r)
    && (p.exporters.all fun e => c.exporters.any fun d => d.name == e)

/-- Print one file-tailing receiver in the agent's YAML form. -/
def renderReceiver (r : FilesReceiver) : String :=
  "    " ++ r.name ++ ":\n      type: files\n      include_paths:\n"
  ++ String.join (r.includePaths.map fun p => "      - " ++ p ++ "\n")

/-- Print one exporter in the agent's YAML form. -/
def renderExporter (e : ExporterDecl) : String :=
  "    " ++ e.name ++ ":\n      type: " ++ e.type ++ "\n"

/-- Print one pipeline in the agent's YAML form. -/
def renderPipeline (p : PipelineDecl) : String :=
  "      " ++ p.name ++ ":\n        receivers:\n"
  ++ String.join (p.receivers.map fun r => "        - " ++ r ++ "\n")
  ++ "        exporters: [" ++ String.intercalate ", " p.exporters ++ "]\n"

/-- Print a whole logging configuration in the agent's YAML form. -/
def renderLoggingConfig (c : LoggingConfig) : String :=
  "logging:\n  receivers:\n"
  ++ String.join (c.receivers.map renderReceiver)
  ++ "  exporters:\n"
  ++ String.join (c.exporters.map renderExporter)
  ++ "  service:\n    pipelines:\n"
  ++ String.join (c.pipelines.map renderPipeline)

/-- The abstract configuration the launcher's emitted text denotes:
two file-tailing receivers (the workload's primary log and the
launcher's debug log) and one export target, wired into one pipeline. -/
def usedLoggingConfig : LoggingConfig :=
  { receivers :=
      [⟨"mylog_source", [logPath]⟩, ⟨"generator_debug_logs", [debugLogPath]⟩]
    exporters := [⟨"google", "google_cloud_logging"⟩]
    pipelines :=
      [⟨"my_pipeline", ["mylog_source", "generator_debug_logs"], ["google"]⟩] }

/-! ## The run controller -/

/-- The stages of the run controller state machine (spec section 4.6). -/
inductive Stage
  | Created
  | Provisioned
  | AgentInstalled
  | InterpreterReady
  | ContentUploaded
  | WorkloadLaunched
  | Verified
  | Failed
  deriving DecidableEq

/-- The errors `mainErr` can return. -/
inductive RunError
  | configError (msg : String)
  | provisionError (msg : String)
  | execError (stage : Stage) (msg : String)
  deriving DecidableEq

/-- The externally visible calls `mainErr` issues, in order. Calls made
under the run's context record that context's deadline in
nanoseconds. `createInstance` records the `gce.VMOptions` fields derived
from the configuration. `cleanupKeys` is the deferred
`gce.CleanupKeysOrDie()`. -/
inductive Effect
  | createInstance (deadlineNs : Nat) (platform name machine : String)
      (ttlLabel : String) (osconfigTasksDisabled : Bool) (extraCreateArg : String)
  | setupOpsAgent (deadlineNs : Nat) (config : String)
  | runRemotely (deadlineNs : Nat) (script : String)
  | installPackages (deadlineNs : Nat) (pkgs : List String)
  | uploadContent (deadlineNs : Nat) (destPath : String)
  | sleepNs (ns : Nat)
  | cleanupKeys
  deriving DecidableEq

/-- Whether an effect is a call through the Remote Executor (the `gce`
transport to the VM): agent setup, remote command, package install and
content upload all run scripts on the VM; provisioning, sleeping and key
cleanup do not. -/
def Effect.isRemoteExec : Effect → Bool
  | .setupOpsAgent _ _ => true
  | .runRemotely _ _ => true
  | .installPackages _ _ => true
  | .uploadContent _ _ => true
  | _ => false

/-- The context deadline an effect's call is made under, when it takes
the run context (`time.Sleep` and the deferred cleanup do not). -/
def Effect.ctxDeadline : Effect → Option Nat
  | .createInstance d _ _ _ _ _ _ => some d
  | .setupOpsAgent d _ => some d
  | .runRemotely d _ => some d
  | .installPackages d _ => some d
  | .uploadContent d _ => some d
  | .sleepNs _ => none
  | .cleanupKeys => none

/-- The results of the external collaborators, fixed per run: each
field is `none` for success or `some msg` for the error returned by
that call. `debugLogContent` is the content of the remote debug-log
file at verification time (`none` when the file does not exist). -/
structure Env where
  createInstanceErr : Option String
  setupOpsAgentErr : Option String
  installInterpreterErr : Option String
  uploadContentErr : Option String
  startWorkloadErr : Option String
  debugLogContent : Option String
  deriving DecidableEq

/-- Modelled from the spec: the remote shell's behaviour on the
verification read (the remote transport is not under `src/`). Running
`cat <path>` succeeds exactly when the file exists, returning its
content — an existing but empty file still makes `cat` exit zero. -/
def catRunErr (content : Option String) : Option String :=
  match content with
  | none => some ("cat: " ++ debugLogPath ++ ": No such file or directory")
  | some _ => none

/-- The outcome of one replay of `mainErr`: its returned error (if
any), the ordered list of effects issued, and the ordered list of run
controller stages reached. -/
structure RunOutcome where
  err : Option RunError
  effects : List Effect
  stages : List Stage
  deriving DecidableEq

/-- Replay of `mainErr` from `main.go`: parse the TTL; create the VM
with the TTL-minutes label; install the agent with the generated
configuration; install the interpreter (PowerShell download on Windows,
`python3` package otherwise); upload the log generator; start it with
the platform-specific script; on POSIX, sleep five seconds and read the
debug log back. The first failing call returns its error, skipping all
later calls; the deferred `gce.CleanupKeysOrDie()` is always the last
effect. The `stages` trace instruments this control flow with the run
controller states of spec section 4.6, a failing transition recording
`Failed`. -/
def mainErrModel (cfg : Config) (env : Env) : RunOutcome :=
  let d := overallDeadlineNs
  match parseDuration cfg.ttl with
  | none =>
      { err := some (.configError ("Could not parse TTL duration \"" ++ cfg.ttl ++ "\""))
        effects := [.cleanupKeys]
        stages := [.Created, .Failed] }
  | some parsedTTL =>
      let provisionEff := Effect.createInstance d cfg.distro cfg.vmName machineType
          (ttlMinutesLabel parsedTTL) true "--boot-disk-size=4000GB"
      match env.createInstanceErr with
      | some e =>
          { err := some (.provisionError e)
            effects := [provisionEff, .cleanupKeys]
            stages := [.Created, .Failed] }
      | none =>
          let setupEff := Effect.setupOpsAgent d (agentConfig logPath debugLogPath)
          match env.setupOpsAgentErr with
          | some e =>
              { err := some (.execError .AgentInstalled e)
                effects := [provisionEff, setupEff, .cleanupKeys]
                stages := [.Created, .Provisioned, .Failed] }
          | none =>
              let isWin := IsWindows cfg.distro
              let installEff := if isWin then Effect.runRemotely d installPythonScript
                                else Effect.installPackages d ["python3"]
              match env.installInterpreterErr with
              | some e =>
                  { err := some (.execError .InterpreterReady
                      (if isWin then "Could not install Python: " ++ e else e))
                    effects := [provisionEff, setupEff, installEff, .cleanupKeys]
                    stages := [.Created, .Provisioned, .AgentInstalled, .Failed] }
              | none =>
                  let uploadEff := Effect.uploadContent d logGeneratorPath
                  match env.uploadContentErr with
                  | some e =>
                      { err := some (.execError .ContentUploaded e)
                        effects := [provisionEff, setupEff, installEff, uploadEff,
                          .cleanupKeys]
                        stages := [.Created, .Provisioned, .AgentInstalled,
                          .InterpreterReady, .Failed] }
                  | none =>
                      let startEff := Effect.runRemotely d
                          (startLogGenerator isWin logGeneratorPath cfg.logSizeInBytes
                            cfg.logRate logPath debugLogPath)
                      match env.startWorkloadErr with
                      | some e =>
                          { err := some (.execError .WorkloadLaunched e)
                            effects := [provisionEff, setupEff, installEff, uploadEff,
                              startEff, .cleanupKeys]
                            stages := [.Created, .Provisioned, .AgentInstalled,
                              .InterpreterReady, .ContentUploaded, .Failed] }
                      | none =>
                          if isWin then
                            { err := none
                              effects := [provisionEff, setupEff, installEff, uploadEff,
                                startEff, .cleanupKeys]
                              stages := [.Created, .Provisioned, .AgentInstalled,
                                .InterpreterReady, .ContentUploaded, .WorkloadLaunched,
                                .Verified] }
                          else
                            match catRunErr env.debugLogContent with
                            | some e =>
                                { err := some (.execError .Verified e)
                                  effects := [provisionEff, setupEff, installEff,
                                    uploadEff, startEff, .sleepNs 5000000000,
                                    .runRemotely d catScript, .cleanupKeys]
                                  stages := [.Created, .Provisioned, .AgentInstalled,
                                    .InterpreterReady, .ContentUploaded,
                                    .WorkloadLaunched, .Failed] }
                            | none =>
                                { err := none
                                  effects := [provisionEff, setupEff, installEff,
                                    uploadEff, startEff, .sleepNs 5000000000,
                                    .runRemotely d catScript, .cleanupKeys]
                                  stages := [.Created, .Provisioned, .AgentInstalled,
                                    .InterpreterReady, .ContentUploaded,
                                    .WorkloadLaunched, .Verified] }

/-- Replay of `main`: `log.Fatal(err)` exits with status 1 when
`mainErr` returns an error, and the process exits 0 otherwise. -/
def mainModel (cfg : Config) (env : Env) : Nat :=
  match (mainErrModel cfg env).err with
  | some _ => 1
  | none => 0

/-- An environment in which every external call succeeds and the debug
log holds one line. -/
def happyEnv : Env :=
  { createInstanceErr := none
    setupOpsAgentErr := none
    installInterpreterErr := none
    uploadContentErr := none
    startWorkloadErr := none
    debugLogContent := some "starting log generator\n" }

/-- A POSIX run configuration used for concrete evaluations. -/
def debianCfg : Config :=
  { logSizeInBytes := "1000"
    logRate := "1000"
    ttl := "100m"
    distro := "debian-11"
    vmName := "" }

/-- An environment whose provisioning call fails. -/
def provFailEnv : Env :=
  { createInstanceErr := some "quota exceeded"
    setupOpsAgentErr := none
    installInterpreterErr := none
    uploadContentErr := none
    startWorkloadErr := none
    debugLogContent := none }

/-- An environment in which every external call succeeds but the debug
log file exists and is empty at verification time. -/
def emptyLogEnv : Env :=
  { createInstanceErr := none
    setupOpsAgentErr := none
    installInterpreterErr := none
    uploadContentErr := none
    startWorkloadErr := none
    debugLogContent := some "" }

/-- A configuration violating both input constraints of spec section
4.3: a TTL that parses to a negative (non-positive) duration, and an
empty platform identifier. -/
def invalidCfg : Config :=
  { logSizeInBytes := "1000"
    logRate := "1000"
    ttl := "-5m"
    distro := ""
    vmName := "" }

/-- A configuration whose TTL does not parse as a duration. -/
def badTtlCfg : Config :=
  { logSizeInBytes := "1000"
    logRate := "1000"
    ttl := "garbage"
    distro := "debian-11"
    vmName := "" }

/-- A path parameter value containing an unescaped double-quote. -/
def quotedPath : String := "/tmp/a\"b"

/-! ## Theorems -/

set_option maxRecDepth 8000

/-- Helper: whenever the TTL parses, the provisioning request — with
the machine type, the TTL-minutes label and the extra arguments of
`gce.VMOptions` — is among the issued effects, whatever the rest of the
run does. -/
lemma createInstance_mem (cfg : Config) (env : Env) (d : Int)
    (hp : parseDuration cfg.ttl = some d) :
    Effect.createInstance overallDeadlineNs cfg.distro cfg.vmName machineType
      (ttlMinutesLabel d) true "--boot-disk-size=4000GB"
      ∈ (mainErrModel cfg env).effects := by
  cases h1 : env.createInstanceErr <;>
  cases h2 : env.setupOpsAgentErr <;>
  cases h3 : env.installInterpreterErr <;>
  cases h4 : env.uploadContentErr <;>
  cases h5 : env.startWorkloadErr <;>
  cases hw : IsWindows cfg.distro <;>
  cases hd : env.debugLogContent <;>
  simp [mainErrModel, hp, h1, h2, h3, h4, h5, hw, hd, catRunErr]

/-- C1, counterexample: a path parameter containing an unescaped
double-quote is not rejected — rendering the start-workload script
succeeds and embeds the offending value verbatim, double-quote
included. (The renderers are total functions into script text; no
`UnsafeParameter` failure exists in the code.) -/
theorem C1_counterexample :
    quotedPath.data.contains '\"' = true
    ∧ quotedPath.data <:+:
        (startLogGeneratorPosix logGeneratorPath "1000" "1000" quotedPath debugLogPath).data := by
  exact ⟨by decide, by decide⟩

/-- C1, amended: rendering never fails. Every path parameter value —
whether an ordinary absolute path or one containing an unescaped
double-quote — is accepted and embedded unchanged in the rendered
start-workload script, on both the POSIX and the Windows form. -/
theorem C1_paths_embedded_unchanged (genPath sizeStr rateStr filePath debugLog : String) :
    filePath.data <:+:
      (startLogGeneratorPosix genPath sizeStr rateStr filePath debugLog).data
    ∧ filePath.data <:+:
      (startLogGeneratorWindows genPath sizeStr rateStr filePath).data := by
  constructor
  · refine ⟨("nohup python3 " ++ genPath ++ " \\\n  --log-size-in-bytes=\"" ++ sizeStr
      ++ "\" \\\n  --log-rate=\"" ++ rateStr
      ++ "\" \\\n  --log-write-type=file \\\n  --file-path=\"").data,
      ("\" \\\n  &> " ++ debugLog ++ " &\n").data, ?_⟩
    simp [startLogGeneratorPosix, String.data_append, List.append_assoc]
  · refine ⟨("Invoke-WmiMethod -ComputerName . -Class Win32_Process -Name Create -ArgumentList \"$env:SystemDrive\\Python\\python.exe "
      ++ genPath ++ " --log-size-in-bytes=" ++ sizeStr ++ " --log-rate=" ++ rateStr
      ++ " --log-write-type=file --file-path=").data, ("\"").data, ?_⟩
    simp [startLogGeneratorWindows, String.data_append, List.append_assoc]

/-- C2: for every configuration and every environment, the stage order
of the run controller is monotonic — `WorkloadLaunched` appears in the
reached-stage trace only with `ContentUploaded` before it, and
`Verified` only with `WorkloadLaunched` before it. -/
theorem C2_stage_order (cfg : Config) (env : Env) :
    (Stage.WorkloadLaunched ∈ (mainErrModel cfg env).stages →
      List.Sublist [Stage.ContentUploaded, Stage.WorkloadLaunched]
        (mainErrModel cfg env).stages)
    ∧ (Stage.Verified ∈ (mainErrModel cfg env).stages →
      List.Sublist [Stage.WorkloadLaunched, Stage.Verified]
        (mainErrModel cfg env).stages) := by
  cases hp : parseDuration cfg.ttl <;>
  cases h1 : env.createInstanceErr <;>
  cases h2 : env.setupOpsAgentErr <;>
  cases h3 : env.installInterpreterErr <;>
  cases h4 : env.uploadContentErr <;>
  cases h5 : env.startWorkloadErr <;>
  cases hw : IsWindows cfg.distro <;>
  cases hd : env.debugLogContent <;>
  simp [mainErrModel, hp, h1, h2, h3, h4, h5, hw, hd, catRunErr] <;>
  decide

/-- C2, witness: on a successful POSIX run both antecedents hold and
the ordered sublists are present. -/
theorem C2_stage_order_witness :
    Stage.WorkloadLaunched ∈ (mainErrModel debianCfg happyEnv).stages
    ∧ List.Sublist [Stage.ContentUploaded, Stage.WorkloadLaunched]
        (mainErrModel debianCfg happyEnv).stages
    ∧ List.Sublist [Stage.WorkloadLaunched, Stage.Verified]
        (mainErrModel debianCfg happyEnv).stages :=
  ⟨by decide, (C2_stage_order debianCfg happyEnv).1 (by decide),
    (C2_stage_order debianCfg happyEnv).2 (by decide)⟩

/-- C3: when provisioning returns an error, the controller moves
directly from `Created` to `Failed` carrying that provisioning error,
no Remote Executor call is ever issued, the deferred key-material
cleanup still runs, and the process exits with status 1. -/
theorem C3_provision_failure (cfg : Config) (env : Env) (d : Int) (e : String)
    (hp : parseDuration cfg.ttl = some d)
    (h1 : env.createInstanceErr = some e) :
    (mainErrModel cfg env).err = some (.provisionError e)
    ∧ (mainErrModel cfg env).stages = [Stage.Created, Stage.Failed]
    ∧ (∀ eff ∈ (mainErrModel cfg env).effects, eff.isRemoteExec = false)
    ∧ Effect.cleanupKeys ∈ (mainErrModel cfg env).effects
    ∧ mainModel cfg env = 1 := by
  refine ⟨?_, ?_, ?_, ?_, ?_⟩ <;>
  simp [mainErrModel, mainModel, hp, h1, Effect.isRemoteExec]

/-- C3, witness: the provisioning-failure scenario at a concrete
configuration and environment. -/
theorem C3_provision_failure_witness :
    parseDuration debianCfg.ttl = some 6000000000000
    ∧ provFailEnv.createInstanceErr = some "quota exceeded"
    ∧ ((mainErrModel debianCfg provFailEnv).err
        = some (.provisionError "quota exceeded")
      ∧ (mainErrModel debianCfg provFailEnv).stages = [Stage.Created, Stage.Failed]
      ∧ (∀ eff ∈ (mainErrModel debianCfg provFailEnv).effects, eff.isRemoteExec = false)
      ∧ Effect.cleanupKeys ∈ (mainErrModel debianCfg provFailEnv).effects
      ∧ mainModel debianCfg provFailEnv = 1) :=
  ⟨by decide, by decide,
    C3_provision_failure debianCfg provFailEnv 6000000000000 "quota exceeded"
      (by decide) (by decide)⟩

/-- C4: for every configuration whose workload rate and record size
are both the string `1000`, the rendered POSIX start-workload script
contains the literal substrings `--log-rate="1000"` and
`--log-size-in-bytes="1000"`, and redirects output to the configured
debug log path. -/
theorem C4_posix_script_parameters (cfg : Config)
    (hr : cfg.logRate = "1000") (hs : cfg.logSizeInBytes = "1000") :
    ("--log-rate=\"1000\"").data <:+:
      (startLogGenerator false logGeneratorPath cfg.logSizeInBytes cfg.logRate
        logPath debugLogPath).data
    ∧ ("--log-size-in-bytes=\"1000\"").data <:+:
      (startLogGenerator false logGeneratorPath cfg.logSizeInBytes cfg.logRate
        logPath debugLogPath).data
    ∧ ("&> " ++ debugLogPath).data <:+:
      (startLogGenerator false logGeneratorPath cfg.logSizeInBytes cfg.logRate
        logPath debugLogPath).data := by
  rw [hr, hs]
  exact ⟨by decide, by decide, by decide⟩

/-- C4, witness: the same three substring facts at the concrete
configuration with rate and size `1000`. -/
theorem C4_posix_script_parameters_witness :
    ("--log-rate=\"1000\"").data <:+:
      (startLogGenerator false logGeneratorPath debianCfg.logSizeInBytes
        debianCfg.logRate logPath debugLogPath).data
    ∧ ("--log-size-in-bytes=\"1000\"").data <:+:
      (startLogGenerator false logGeneratorPath debianCfg.logSizeInBytes
        debianCfg.logRate logPath debugLogPath).data
    ∧ ("&> " ++ debugLogPath).data <:+:
      (startLogGenerator false logGeneratorPath debianCfg.logSizeInBytes
        debianCfg.logRate logPath debugLogPath).data :=
  C4_posix_script_parameters debianCfg rfl rfl

/-- C5: the TTL label attached to the provisioning request is the
parsed TTL divided by one minute with truncation (floor for the
positive inputs of the claim): whenever the TTL parses to `d`, the
issued `createInstance` effect carries label `ttlMinutesLabel d`; for
TTL `100m` the derived label is exactly `100`, and for `90m30s` it is
exactly `90`. -/
theorem C5_ttl_label :
    (∀ cfg env d, parseDuration cfg.ttl = some d →
      Effect.createInstance overallDeadlineNs cfg.distro cfg.vmName machineType
        (ttlMinutesLabel d) true "--boot-disk-size=4000GB"
        ∈ (mainErrModel cfg env).effects)
    ∧ ttlLabelOf "100m" = some "100"
    ∧ ttlLabelOf "90m30s" = some "90" :=
  ⟨fun cfg env d hp => createInstance_mem cfg env d hp, by decide, by decide⟩

/-- C5, witness: at the concrete configuration with TTL `100m`, the
provisioning effect carrying label `100` is issued. -/
theorem C5_ttl_label_witness :
    parseDuration debianCfg.ttl = some 6000000000000
    ∧ ttlMinutesLabel 6000000000000 = "100"
    ∧ Effect.createInstance overallDeadlineNs debianCfg.distro debianCfg.vmName
        machineType (ttlMinutesLabel 6000000000000) true "--boot-disk-size=4000GB"
        ∈ (mainErrModel debianCfg happyEnv).effects :=
  ⟨by decide, by decide,
    C5_ttl_label.1 debianCfg happyEnv 6000000000000 (by decide)⟩

/-- C6, counterexample: on POSIX, a run in which the debug log file
exists but is empty at verification time still reaches `Verified` and
returns success — non-emptiness is not part of the verification
signal, because `cat` of an existing empty file exits zero. -/
theorem C6_counterexample :
    IsWindows debianCfg.distro = false
    ∧ emptyLogEnv.debugLogContent = some ""
    ∧ (mainErrModel debianCfg emptyLogEnv).err = none
    ∧ Stage.Verified ∈ (mainErrModel debianCfg emptyLogEnv).stages := by
  exact ⟨by decide, by decide, by decide, by decide⟩

/-- C6, amended: on POSIX, after the launch stage the controller
sleeps a five-second grace period and then reads the debug log back
with `cat`; the run reaches `Verified` only if the debug log file
exists at that point (its content, empty or not, is not inspected). -/
theorem C6_posix_verification (cfg : Config) (env : Env)
    (hw : IsWindows cfg.distro = false)
    (hv : Stage.Verified ∈ (mainErrModel cfg env).stages) :
    env.debugLogContent ≠ none
    ∧ Effect.sleepNs 5000000000 ∈ (mainErrModel cfg env).effects
    ∧ Effect.runRemotely overallDeadlineNs catScript ∈ (mainErrModel cfg env).effects := by
  cases hp : parseDuration cfg.ttl <;>
  cases h1 : env.createInstanceErr <;>
  cases h2 : env.setupOpsAgentErr <;>
  cases h3 : env.installInterpreterErr <;>
  cases h4 : env.uploadContentErr <;>
  cases h5 : env.startWorkloadErr <;>
  cases hd : env.debugLogContent <;>
  simp [mainErrModel, hp, h1, h2, h3, h4, h5, hw, hd, catRunErr] at hv ⊢

/-- C6, witness: a successful POSIX run satisfying both hypotheses,
with an existing debug log, the grace-period sleep and the
verification read. -/
theorem C6_posix_verification_witness :
    IsWindows debianCfg.distro = false
    ∧ Stage.Verified ∈ (mainErrModel debianCfg happyEnv).stages
    ∧ (happyEnv.debugLogContent ≠ none
      ∧ Effect.sleepNs 5000000000 ∈ (mainErrModel debianCfg happyEnv).effects
      ∧ Effect.runRemotely overallDeadlineNs catScript
          ∈ (mainErrModel debianCfg happyEnv).effects) :=
  ⟨by decide, by decide,
    C6_posix_verification debianCfg happyEnv (by decide) (by decide)⟩

/-- C7: the rendered start-workload script differs categorically by
platform classification. Windows classification yields the
`Invoke-WmiMethod ... Win32_Process ... Create` remote
process-creation invocation, whose text is independent of the debug
log path (no output is routed anywhere, so the launch stage captures
no output); POSIX classification yields the `nohup` command that ends
by redirecting all output to the debug log path and backgrounding the
process with a trailing `&`. -/
theorem C7_platform_dichotomy (genPath sizeStr rateStr filePath debugLog debugLog' : String) :
    startLogGenerator true genPath sizeStr rateStr filePath debugLog
      = startLogGeneratorWindows genPath sizeStr rateStr filePath
    ∧ startLogGenerator false genPath sizeStr rateStr filePath debugLog
      = startLogGeneratorPosix genPath sizeStr rateStr filePath debugLog
    ∧ startLogGenerator true genPath sizeStr rateStr filePath debugLog
      = startLogGenerator true genPath sizeStr rateStr filePath debugLog'
    ∧ ("Invoke-WmiMethod -ComputerName . -Class Win32_Process -Name Create -ArgumentList \"").data
        <+: (startLogGenerator true genPath sizeStr rateStr filePath debugLog).data
    ∧ ("\" \\\n  &> " ++ debugLog ++ " &\n").data
        <:+ (startLogGenerator false genPath sizeStr rateStr filePath debugLog).data := by
  refine ⟨rfl, rfl, rfl, ?_, ?_⟩
  · refine ⟨("$env:SystemDrive\\Python\\python.exe " ++ genPath ++ " --log-size-in-bytes="
      ++ sizeStr ++ " --log-rate=" ++ rateStr ++ " --log-write-type=file --file-path="
      ++ filePath ++ "\"").data, ?_⟩
    simp [startLogGenerator, startLogGeneratorWindows, String.data_append, List.append_assoc]
  · refine ⟨("nohup python3 " ++ genPath ++ " \\\n  --log-size-in-bytes=\"" ++ sizeStr
      ++ "\" \\\n  --log-rate=\"" ++ rateStr
      ++ "\" \\\n  --log-write-type=file \\\n  --file-path=\"" ++ filePath).data, ?_⟩
    simp [startLogGenerator, startLogGeneratorPosix, String.data_append, List.append_assoc]

/-- C8, counterexample: a configuration whose TTL parses to a negative
(hence non-positive) duration and whose platform identifier is empty
is not rejected — the provisioning request is still issued, carrying
label `-5`. -/
theorem C8_counterexample :
    parseDuration invalidCfg.ttl = some (-300000000000)
    ∧ invalidCfg.distro = ""
    ∧ Effect.createInstance overallDeadlineNs "" "" machineType "-5" true
        "--boot-disk-size=4000GB" ∈ (mainErrModel invalidCfg happyEnv).effects := by
  exact ⟨by decide, by decide, by decide⟩

/-- C8, amended: the only input validation before provisioning is that
the TTL parses as a duration of any sign; a TTL that fails to parse
aborts the run before any provisioning request (only the deferred
cleanup happens), while any configuration whose TTL parses — positive
or not, with an empty platform identifier or not — has the
provisioning request issued. -/
theorem C8_ttl_parse_only_validation (cfg : Config) (env : Env) :
    (parseDuration cfg.ttl = none →
      (∃ m, (mainErrModel cfg env).err = some (.configError m))
      ∧ ∀ eff ∈ (mainErrModel cfg env).effects, eff = Effect.cleanupKeys)
    ∧ ∀ d, parseDuration cfg.ttl = some d →
      Effect.createInstance overallDeadlineNs cfg.distro cfg.vmName machineType
        (ttlMinutesLabel d) true "--boot-disk-size=4000GB"
        ∈ (mainErrModel cfg env).effects := by
  constructor
  · intro hp
    refine ⟨⟨"Could not parse TTL duration \"" ++ cfg.ttl ++ "\"", ?_⟩, ?_⟩ <;>
      simp [mainErrModel, hp]
  · exact fun d hp => createInstance_mem cfg env d hp

/-- C8, witness: an unparsable TTL aborts with a configuration error
and no effect but the cleanup; a parsable TTL leads to the
provisioning request. -/
theorem C8_ttl_parse_only_validation_witness :
    ((∃ m, (mainErrModel badTtlCfg happyEnv).err = some (.configError m))
      ∧ ∀ eff ∈ (mainErrModel badTtlCfg happyEnv).effects, eff = Effect.cleanupKeys)
    ∧ Effect.createInstance overallDeadlineNs debianCfg.distro debianCfg.vmName
        machineType (ttlMinutesLabel 6000000000000) true "--boot-disk-size=4000GB"
        ∈ (mainErrModel debianCfg happyEnv).effects :=
  ⟨(C8_ttl_parse_only_validation badTtlCfg happyEnv).1 (by decide),
    (C8_ttl_parse_only_validation debianCfg happyEnv).2 6000000000000 (by decide)⟩

/-- C9: the generated agent configuration is exactly the rendering of
a structured pipeline description — two file-tailing receivers, one
watching the workload log path and one watching the debug log path,
exactly one export target, and a pipeline whose references all
resolve — and is therefore syntactically valid in the YAML
configuration language of the agent. -/
theorem C9_agent_config_structure :
    agentConfig logPath debugLogPath = renderLoggingConfig usedLoggingConfig
    ∧ 2 ≤ usedLoggingConfig.receivers.length
    ∧ usedLoggingConfig.receivers.map FilesReceiver.includePaths
        = [[logPath], [debugLogPath]]
    ∧ usedLoggingConfig.exporters.length = 1
    ∧ usedLoggingConfig.wellFormed = true := by
  exact ⟨by decide, by decide, by decide, by decide, by decide⟩

/-- C10: every effect of every run either is the grace-period sleep or
the deferred cleanup (which take no context), or carries exactly the
60-minute overall context deadline — whatever the TTL is, so a TTL
longer than 60 minutes does not extend the orchestration deadline. -/
theorem C10_overall_deadline :
    (∀ cfg env, ∀ eff ∈ (mainErrModel cfg env).effects,
      eff.ctxDeadline = some overallDeadlineNs
      ∨ eff = Effect.cleanupKeys ∨ eff = Effect.sleepNs 5000000000)
    ∧ overallDeadlineNs = 60 * 60 * 1000000000 := by
  constructor
  · intro cfg env
    cases hp : parseDuration cfg.ttl <;>
    cases h1 : env.createInstanceErr <;>
    cases h2 : env.setupOpsAgentErr <;>
    cases h3 : env.installInterpreterErr <;>
    cases h4 : env.uploadContentErr <;>
    cases h5 : env.startWorkloadErr <;>
    cases hw : IsWindows cfg.distro <;>
    cases hd : env.debugLogContent <;>
    simp [mainErrModel, hp, h1, h2, h3, h4, h5, hw, hd, catRunErr, Effect.ctxDeadline]
  · rfl

/-- C10, witness: on a run with a 100-minute TTL, the upload effect is
issued and carries the 60-minute deadline. -/
theorem C10_overall_deadline_witness :
    Effect.uploadContent overallDeadlineNs logGeneratorPath
      ∈ (mainErrModel debianCfg happyEnv).effects
    ∧ ((Effect.uploadContent overallDeadlineNs logGeneratorPath).ctxDeadline
        = some overallDeadlineNs
      ∨ Effect.uploadContent overallDeadlineNs logGeneratorPath = Effect.cleanupKeys
      ∨ Effect.uploadContent overallDeadlineNs logGeneratorPath
        = Effect.sleepNs 5000000000) :=
  ⟨by decide,
    C10_overall_deadline.1 debianCfg happyEnv
      (Effect.uploadContent overallDeadlineNs logGeneratorPath) (by decide)⟩

end Launcher
